import Mathlib

/-!
# Verification of the HackJudge AI core services

Shallow embedding of the judge-intelligence and feedback pipeline of the
HackJudge AI repository:

* `src/services/geminiService.ts` — `analyzeHackathonUrl` (the data-sanitation
  pass on the parsed inference result, lines 87-136), `analyzeVideoDemo`
  (lines 144-224) and `getRealTimeFeedback` (lines 226-249);
* `src/components/SmartMirror.tsx` — the `recognition.onresult` pacing logic
  (lines 117-148) and `startRecording` (lines 154-174).

The external reasoning service (Gemini) is modelled by its observable outcome:
an inference call either throws, returns no text, or returns text whose parse
is represented directly as structured data.  Since `JSON.parse(text) as T` in
the source performs a cast with no validation, every field of the parsed
records is modelled as optional (`Option`), which is exactly the state of the
data when the sanitation pass receives it.  Times are in milliseconds (`Nat`),
JavaScript arithmetic on them is exact rational arithmetic (`ℚ`), and
`Math.round` is `⌊x + 1/2⌋`.
-/

namespace HackJudge

/-- One `{time, action}` step of the strategy timeline
(`types.ts`, `HackathonData.strategy.structure` items); both fields are
optional in the response schema, so the parsed form may miss either. -/
structure StructStep where
  time : Option String
  action : Option String
deriving DecidableEq

/-- A judge record as parsed from the inference response (`types.ts` `Judge`,
all fields possibly absent since `JSON.parse` is an unchecked cast). -/
structure RawJudge where
  name : Option String
  role : Option String
  company : Option String
  values : Option (List String)
  focusAreas : Option (List String)
  redFlags : Option (List String)
  recommendedTalkingPoints : Option (List String)
deriving DecidableEq

/-- The strategy record as parsed from the inference response
(`types.ts` `HackathonData.strategy`, all fields possibly absent). -/
structure RawStrategy where
  «structure» : Option (List StructStep)
  keyPhrases : Option (List String)
  featuresToEmphasize : Option (List String)
  generatedScript : Option String
deriving DecidableEq

/-- The `judges` field of the parsed response.  The sanitation check in
`geminiService.ts` line 97 is `!data.judges || !Array.isArray(data.judges) ||
data.judges.length === 0`; `missing` covers the falsy cases (absent, `null`),
`notArray` a present non-array value, `arr` an actual array. -/
inductive JudgesField where
  | missing
  | notArray
  | arr (js : List RawJudge)
deriving DecidableEq

/-- The whole parsed inference response for `analyzeHackathonUrl`
(`types.ts` `HackathonData`, every field possibly absent). -/
structure RawData where
  title : Option String
  url : Option String
  criteria : Option (List String)
  judges : JudgesField
  strategy : Option RawStrategy
deriving DecidableEq

/-- The built-in two-entry fallback judge panel of
`geminiService.ts` lines 99-118, copied verbatim. -/
def fallbackJudges : List RawJudge :=
  [ { name := some "The Technical Judge"
    , role := some "Senior Engineer"
    , company := some "Tech Corp"
    , values := some ["Clean Code", "Scalability"]
    , focusAreas := some ["Architecture", "Stack choice"]
    , redFlags := some ["Spaghetti code", "Security flaws"]
    , recommendedTalkingPoints :=
        some ["Mention your tech stack", "Explain how it scales"] }
  , { name := some "The Product Judge"
    , role := some "Product Manager"
    , company := some "Innovation Inc"
    , values := some ["User Experience", "Problem/Solution Fit"]
    , focusAreas := some ["UI/UX", "User Journey"]
    , redFlags := some ["Confusing UI", "No clear problem statement"]
    , recommendedTalkingPoints :=
        some ["Show the user flow", "Explain the \x27Why\x27"] } ]

/-- The default strategy substituted when `strategy` is absent
(`geminiService.ts` lines 121-128). -/
def defaultStrategy : RawStrategy :=
  { «structure» := some []
  , keyPhrases := some []
  , featuresToEmphasize := some []
  , generatedScript :=
      some "Could not generate script. Please try analyzing again." }

/-- The guard of `geminiService.ts` line 97:
`!data.judges || !Array.isArray(data.judges) || data.judges.length === 0`. -/
def judgesNeedFallback : JudgesField → Bool
  | JudgesField.missing => true
  | JudgesField.notArray => true
  | JudgesField.arr js => js.isEmpty

/-- The strategy part of the sanitation pass, `geminiService.ts` lines
121-133: if `strategy` is falsy it is replaced by `defaultStrategy`
(lines 121-128), then `generatedScript` is replaced when falsy (absent or the
empty string, line 131) and `structure` and `keyPhrases` are replaced when
absent (lines 132-133; an empty array is truthy in JavaScript, so a present
empty list is kept).  `featuresToEmphasize` is never touched here. -/
def sanitizeStrategy (os : Option RawStrategy) : RawStrategy :=
  let st := os.getD defaultStrategy
  { «structure» :=
      match st.«structure» with
      | none => some []
      | some l => some l
  , keyPhrases :=
      match st.keyPhrases with
      | none => some []
      | some l => some l
  , featuresToEmphasize := st.featuresToEmphasize
  , generatedScript :=
      match st.generatedScript with
      | none => some "Script generation incomplete."
      | some s => if s = "" then some "Script generation incomplete." else some s }

/-- The full in-place "Data Sanitation" pass of `analyzeHackathonUrl`
(`geminiService.ts` lines 96-135) on a successfully parsed response: the
judges fallback (lines 97-119) and the strategy repairs (lines 121-133).
`title`, `url` and `criteria` are never mentioned by the pass. -/
def sanitize (d : RawData) : RawData :=
  { d with
    judges :=
      if judgesNeedFallback d.judges then JudgesField.arr fallbackJudges
      else d.judges
  , strategy := some (sanitizeStrategy d.strategy) }

/-- Number of judges carried by a `judges` field (0 when it is not an array). -/
def judgesCount : JudgesField → Nat
  | JudgesField.arr js => js.length
  | _ => 0

/-- The `generatedScript` of a record's strategy, when both exist. -/
def scriptOf (d : RawData) : Option String :=
  match d.strategy with
  | some st => st.generatedScript
  | none => none

/-! ## SmartMirror component state and the pacing logic -/

/-- The mutable state of the `SmartMirror` component that the recording and
pacing code touches: `streamRef` presence, `chunksRef` (abstracted to the
sizes of the buffered chunks), `isRecording`, `recordingTime`, and the pacer
state `wordCountRef` / `lastTranscriptTimeRef` (milliseconds) / `wpm`
(`SmartMirror.tsx` lines 18-32). -/
structure MirrorState where
  hasStream : Bool
  chunks : List Nat
  isRecording : Bool
  recordingTime : Nat
  wordCount : Nat
  lastTranscriptTime : Nat
  wpm : Nat
deriving DecidableEq

/-- JavaScript `Math.round` on an exact rational: round half toward +∞. -/
def jsRound (q : ℚ) : ℤ := ⌊q + 1/2⌋

/-- `const minutes = (now - lastTranscriptTimeRef.current) / 60000`
(`SmartMirror.tsx` line 132), with times in milliseconds. -/
def elapsedMinutes (s : MirrorState) (now : Nat) : ℚ :=
  ((now : ℚ) - (s.lastTranscriptTime : ℚ)) / 60000

/-- `Math.round((words - wordCountRef.current) / minutes)`
(`SmartMirror.tsx` line 135). -/
def rawWPM (s : MirrorState) (words now : Nat) : ℤ :=
  jsRound (((words : ℚ) - (s.wordCount : ℚ)) / elapsedMinutes s now)

/-- The pacing part of the `recognition.onresult` handler
(`SmartMirror.tsx` lines 130-147), as a pure step on the component state.
`words` is the cumulative word count of the session transcript, `now` the
current time in milliseconds.  When `minutes > 0.08` the handler recomputes
the rate, stores `currentWPM > 0 ? currentWPM : 0` via `setWpm`, updates both
refs, and fires a `getRealTimeFeedback` request exactly when
`currentWPM > 0`; otherwise it changes nothing.  The returned `Bool` is
whether a tip request was fired. -/
def onresultObserve (s : MirrorState) (words now : Nat) : MirrorState × Bool :=
  if 0.08 < elapsedMinutes s now then
    let currentWPM := rawWPM s words now
    ({ s with
        wpm := if 0 < currentWPM then currentWPM.toNat else 0
      , wordCount := words
      , lastTranscriptTime := now }
    , decide (0 < currentWPM))
  else (s, false)

/-- `startRecording` (`SmartMirror.tsx` lines 154-174): returns unchanged
when there is no media stream (line 155), otherwise clears `chunksRef`
(line 156), sets `isRecording` (line 171) and resets `recordingTime` to 0
(line 173).  It does not mention `wordCountRef`, `lastTranscriptTimeRef` or
`wpm`, so those fields pass through. -/
def startRecording (s : MirrorState) : MirrorState :=
  if s.hasStream then
    { s with chunks := [], isRecording := true, recordingTime := 0 }
  else s

/-! ## The coaching-tip resolver (`getRealTimeFeedback`) -/

/-- `getRealTimeFeedback` (`geminiService.ts` lines 226-249), modelled on the
observable outcome of the inference call: `none` means `generateContent`
threw (the `catch` branch, line 247 returns the fallback), `some none` means
the call succeeded but `response.text` was absent, `some (some t)` a textual
response `t`.  Line 245 is `return response.text || "Keep going!"`, so an
absent or empty text also yields the fallback.  The function is total: it
always returns a `String`, never an error. -/
def getRealTimeFeedback (resp : Option (Option String)) : String :=
  match resp with
  | none => "Keep going!"
  | some none => "Keep going!"
  | some (some t) => if t = "" then "Keep going!" else t

/-! ## The video critique resolver (`analyzeVideoDemo`) -/

/-- One `{judgeName, feedback}` entry (`types.ts` `AnalysisResult`), fields
optional since the parse is an unchecked cast. -/
structure JudgeFeedback where
  judgeName : Option String
  feedback : Option String
deriving DecidableEq

/-- One Q&A entry (`types.ts` `AnalysisResult.qaQuestions` items). -/
structure QAQuestion where
  question : Option String
  answer : Option String
  feedback : Option String
deriving DecidableEq

/-- The parsed critique (`types.ts` `AnalysisResult`); `overallScore` is a
JavaScript number, modelled as an exact rational. -/
structure AnalysisResult where
  overallScore : Option ℚ
  strengths : Option (List String)
  improvements : Option (List String)
  judgeSpecificFeedback : Option (List JudgeFeedback)
  qaQuestions : Option (List QAQuestion)
deriving DecidableEq

/-- Outcome of the critique inference call when it did not throw:
`noText` — `response.text` is falsy; `unparsable` — text present but
`JSON.parse` throws; `parsed r` — text parses to `r`. -/
inductive RespText where
  | noText
  | unparsable
  | parsed (r : AnalysisResult)
deriving DecidableEq

/-- `analyzeVideoDemo` (`geminiService.ts` lines 144-224), modelled on the
outcomes of its two effectful steps: `enc` is the result of `blobToBase64`
(`none` = the FileReader rejected, which propagates out of the `try`), `resp`
the inference outcome (`none` = `generateContent` threw).  On a parsed
response the result is returned verbatim (line 216, `JSON.parse(...) as
AnalysisResult` with no normalization); every failure re-throws out of the
`catch` (lines 220-223), modelled as `Except.error` with a label naming the
failing step.  An empty response throws `"Analysis failed"` (line 218). -/
def analyzeVideoDemo (enc : Option String) (resp : Option RespText) :
    Except String AnalysisResult :=
  match enc with
  | none => Except.error "video encode failed"
  | some _ =>
    match resp with
    | none => Except.error "inference call failed"
    | some RespText.noText => Except.error "Analysis failed"
    | some RespText.unparsable => Except.error "Invalid JSON response from AI"
    | some (RespText.parsed r) => Except.ok r

/-- Whether an `analyzeVideoDemo` outcome is an error (a raised exception in
the source). -/
def isErr : Except String AnalysisResult → Bool
  | Except.error _ => true
  | Except.ok _ => false

/-! ## Tip request/response interleaving -/

/-- One event of the coaching-tip traffic during a rehearsal: `issue i` — the
`onresult` handler calls `getRealTimeFeedback` (request number `i`,
`SmartMirror.tsx` line 142); `respond i t` — request `i`'s promise resolves
with tip `t` and its `.then` callback runs `setCoachFeedback(t)`
(lines 142-145). -/
inductive TipEvent where
  | issue (reqId : Nat)
  | respond (reqId : Nat) (tip : String)
deriving DecidableEq

/-- The displayed coach feedback after a sequence of tip events, starting
from `disp`.  The source's `.then` callback applies every arriving response
unconditionally — there is no sequence-number check and no in-flight guard —
so each `respond` overwrites the display with its tip, in arrival order. -/
def applyTipResponses : String → List TipEvent → String
  | disp, [] => disp
  | disp, TipEvent.issue _ :: rest => applyTipResponses disp rest
  | _, TipEvent.respond _ t :: rest => applyTipResponses t rest

/-- The largest number of simultaneously outstanding tip requests over a
trace, starting from `cur` outstanding. -/
def inFlightPeak : Nat → List TipEvent → Nat
  | cur, [] => cur
  | cur, TipEvent.issue _ :: rest => max (cur + 1) (inFlightPeak (cur + 1) rest)
  | cur, TipEvent.respond _ _ :: rest => inFlightPeak (cur - 1) rest

/-- The tip of the last `respond` event of a trace, if any. -/
def lastRespTip : List TipEvent → Option String
  | [] => none
  | TipEvent.issue _ :: rest => lastRespTip rest
  | TipEvent.respond _ t :: rest =>
      match lastRespTip rest with
      | none => some t
      | some t2 => some t2

/-! ## Helper lemmas about the sanitation pass -/

/-- After sanitation the strategy is present and is `sanitizeStrategy` of the
parsed strategy. -/
lemma sanitize_strategy_eq (d : RawData) :
    (sanitize d).strategy = some (sanitizeStrategy d.strategy) := rfl

/-- The sanitized `generatedScript` is always a present, non-empty string. -/
lemma sanitizeStrategy_script_nonempty (os : Option RawStrategy) :
    ∃ s : String, (sanitizeStrategy os).generatedScript = some s ∧ s ≠ "" := by
  cases h : (os.getD defaultStrategy).generatedScript with
  | none =>
    refine ⟨"Script generation incomplete.", ?_, by decide⟩
    simp [sanitizeStrategy, h]
  | some s =>
    by_cases hs : s = ""
    · refine ⟨"Script generation incomplete.", ?_, by decide⟩
      simp [sanitizeStrategy, h, hs]
    · exact ⟨s, by simp [sanitizeStrategy, h, hs], hs⟩

/-- The sanitized `structure` list is always present. -/
lemma sanitizeStrategy_structure_isSome (os : Option RawStrategy) :
    (sanitizeStrategy os).«structure».isSome = true := by
  cases h : (os.getD defaultStrategy).«structure» <;>
    simp [sanitizeStrategy, h]

/-- The sanitized `keyPhrases` list is always present. -/
lemma sanitizeStrategy_keyPhrases_isSome (os : Option RawStrategy) :
    (sanitizeStrategy os).keyPhrases.isSome = true := by
  cases h : (os.getD defaultStrategy).keyPhrases <;>
    simp [sanitizeStrategy, h]

/-- Every list field of every fallback judge is present. -/
lemma fallbackJudges_lists_isSome :
    ∀ j ∈ fallbackJudges,
      j.values.isSome = true ∧ j.focusAreas.isSome = true ∧
      j.redFlags.isSome = true ∧ j.recommendedTalkingPoints.isSome = true := by
  decide

/-- A strategy whose three repaired sub-fields are already present (with a
non-empty script) passes through `sanitizeStrategy` unchanged. -/
lemma sanitizeStrategy_intact (st : RawStrategy)
    (h1 : st.«structure».isSome = true) (h2 : st.keyPhrases.isSome = true)
    (h3 : ∃ g, st.generatedScript = some g ∧ g ≠ "") :
    sanitizeStrategy (some st) = st := by
  obtain ⟨g, hg, hgne⟩ := h3
  cases st with
  | mk os ok of og =>
    simp only [RawStrategy.generatedScript] at hg
    subst hg
    obtain ⟨l1, hl1⟩ := Option.isSome_iff_exists.mp h1
    obtain ⟨l2, hl2⟩ := Option.isSome_iff_exists.mp h2
    simp only [RawStrategy.«structure»] at hl1
    simp only [RawStrategy.keyPhrases] at hl2
    subst hl1; subst hl2
    simp [sanitizeStrategy, hgne]

/-! ## C1: fallback judge panel on zero judges -/

/-- C1: for every parsed inference result in which `judges` is missing, not
an array, or empty, the sanitized `HackathonData` carries the fixed built-in
fallback panel (the technical judge and the product judge), so its judge
count is at least 2, and all four list fields of every fallback judge are
non-null lists — the returned record never has an empty judge panel. -/
theorem fallback_panel_on_zero_judges (d : RawData)
    (h : judgesNeedFallback d.judges = true) :
    (sanitize d).judges = JudgesField.arr fallbackJudges ∧
    2 ≤ judgesCount (sanitize d).judges ∧
    ∀ j ∈ fallbackJudges,
      j.values.isSome = true ∧ j.focusAreas.isSome = true ∧
      j.redFlags.isSome = true ∧ j.recommendedTalkingPoints.isSome = true := by
  have hj : (sanitize d).judges = JudgesField.arr fallbackJudges := by
    simp [sanitize, h]
  refine ⟨hj, ?_, fallbackJudges_lists_isSome⟩
  rw [hj]
  decide

/-- Witness for C1 at a response whose `judges` field is absent. -/
theorem fallback_panel_on_zero_judges_w :
    judgesNeedFallback
        (RawData.mk none none none JudgesField.missing none).judges = true ∧
    (sanitize (RawData.mk none none none JudgesField.missing none)).judges
      = JudgesField.arr fallbackJudges :=
  ⟨by decide,
   (fallback_panel_on_zero_judges
     (RawData.mk none none none JudgesField.missing none) (by decide)).1⟩

/-! ## C2: size of the substituted panel -/

/-- A parsed response in which the inference layer returned an empty judge
array. -/
def zeroJudgesInput : RawData :=
  { title := some "AI Hack Night"
  , url := some "https://lu.ma/aihack"
  , criteria := some ["Innovation"]
  , judges := JudgesField.arr []
  , strategy := none }

/-- C2 counterexample: on a response with zero judges the sanitized record
contains exactly 2 judge entries (the built-in fallback panel), not 3 — the
"exactly 3 archetype judges" figure is only an instruction inside the prompt
text, not what the substitution code produces. -/
theorem fallback_panel_size_cex :
    judgesNeedFallback zeroJudgesInput.judges = true ∧
    judgesCount (sanitize zeroJudgesInput).judges = 2 ∧
    judgesCount (sanitize zeroJudgesInput).judges ≠ 3 := by
  decide

/-- C2 amended: for every input where the inference layer returns no judges,
the returned record contains exactly 2 judge entries — the built-in fallback
panel (the prompt asks the model itself for 3 archetype judges, but when the
model returns none the deterministic substitute is the two-entry panel). -/
theorem fallback_panel_exactly_two (d : RawData)
    (h : judgesNeedFallback d.judges = true) :
    judgesCount (sanitize d).judges = 2 := by
  simp [sanitize, h, judgesCount, fallbackJudges]

/-- Witness for the amended C2 at a response with an empty judge array. -/
theorem fallback_panel_exactly_two_w :
    judgesCount (sanitize zeroJudgesInput).judges = 2 :=
  fallback_panel_exactly_two zeroJudgesInput (by decide)

/-! ## C5: the generated script is always a non-empty string -/

/-- C5: on every successfully parsed response, the sanitized record's
`strategy.generatedScript` is a present, non-empty string: a missing strategy
gets the placeholder script of the default strategy, and a missing or empty
`generatedScript` is replaced by the "Script generation incomplete."
placeholder. -/
theorem generated_script_nonempty (d : RawData) :
    ∃ s : String, scriptOf (sanitize d) = some s ∧ s ≠ "" := by
  have h := sanitizeStrategy_script_nonempty d.strategy
  obtain ⟨s, hs, hne⟩ := h
  exact ⟨s, by simpa [scriptOf, sanitize_strategy_eq] using hs, hne⟩

/-! ## C6: which absent list fields are actually repaired -/

/-- A judge returned by the inference layer with all four list fields
absent. -/
def partialJudge : RawJudge :=
  { name := some "Alice", role := some "CTO", company := some "Acme"
  , values := none, focusAreas := none, redFlags := none
  , recommendedTalkingPoints := none }

/-- A parsed response with a non-empty judge array whose judge misses every
list field, and a present strategy missing only `featuresToEmphasize`. -/
def partialInput : RawData :=
  { title := some "AI Hack Night"
  , url := some "https://lu.ma/aihack"
  , criteria := some ["Innovation"]
  , judges := JudgesField.arr [partialJudge]
  , strategy := some
      { «structure» := some [], keyPhrases := some []
      , featuresToEmphasize := none, generatedScript := some "Hi judges." } }

/-- C6 counterexample: the sanitation pass does not replace every absent list
field.  On `partialInput` the returned strategy still has
`featuresToEmphasize = none` (the sub-field repair of lines 131-133 covers
only `generatedScript`, `structure` and `keyPhrases`), and the judge passed
through from the non-empty array still has `values = none` (per-judge lists
are repaired only via the fallback panel). -/
theorem list_defaults_cex :
    ((sanitize partialInput).strategy.map RawStrategy.featuresToEmphasize
       = some none) ∧
    (sanitize partialInput).judges = JudgesField.arr [partialJudge] ∧
    partialJudge.values = none := by
  decide

/-- C6 amended: the sanitation pass guarantees non-null lists only where it
repairs — the returned strategy's `structure` and `keyPhrases` are always
present (empty at minimum) and `generatedScript` is always present;
`featuresToEmphasize` is guaranteed present only when the parsed `strategy`
was entirely absent (it then comes from the default strategy); and the four
per-judge lists are guaranteed present only when the fallback panel was
substituted — judges passed through from a non-empty array keep whatever
fields they had. -/
theorem list_defaults_amended (d : RawData) :
    (sanitize d).strategy = some (sanitizeStrategy d.strategy) ∧
    (sanitizeStrategy d.strategy).«structure».isSome = true ∧
    (sanitizeStrategy d.strategy).keyPhrases.isSome = true ∧
    (sanitizeStrategy d.strategy).generatedScript.isSome = true ∧
    (d.strategy = none →
      (sanitizeStrategy d.strategy).featuresToEmphasize.isSome = true) ∧
    (judgesNeedFallback d.judges = true →
      (sanitize d).judges = JudgesField.arr fallbackJudges ∧
      ∀ j ∈ fallbackJudges,
        j.values.isSome = true ∧ j.focusAreas.isSome = true ∧
        j.redFlags.isSome = true ∧ j.recommendedTalkingPoints.isSome = true) := by
  refine ⟨sanitize_strategy_eq d, sanitizeStrategy_structure_isSome _,
    sanitizeStrategy_keyPhrases_isSome _, ?_, ?_, ?_⟩
  · obtain ⟨s, hs, _⟩ := sanitizeStrategy_script_nonempty d.strategy
    simp [hs]
  · intro h
    simp [h, sanitizeStrategy, defaultStrategy]
  · intro h
    exact ⟨by simp [sanitize, h], fallbackJudges_lists_isSome⟩

/-- Witness for the amended C6 at a response with no strategy and no
judges. -/
theorem list_defaults_amended_w :
    (sanitizeStrategy (RawData.mk none none none JudgesField.missing
        none).strategy).featuresToEmphasize.isSome = true ∧
    (sanitize (RawData.mk none none none JudgesField.missing none)).judges
      = JudgesField.arr fallbackJudges := by
  have h := list_defaults_amended
    (RawData.mk none none none JudgesField.missing none)
  exact ⟨h.2.2.2.2.1 rfl, (h.2.2.2.2.2 (by decide)).1⟩

/-! ## C10: the sanitation pass touches only what it repairs -/

/-- C10: the normalization pass modifies only the fields it repairs — for
every parsed result, `title`, `url` and `criteria` are returned exactly as
parsed; a non-empty judge array is returned unchanged (the fallback panel is
substituted only when `judges` is missing, not an array, or empty); and a
present strategy whose `structure` and `keyPhrases` are present and whose
`generatedScript` is a non-empty string is returned unchanged. -/
theorem sanitize_frame (d : RawData) :
    (sanitize d).title = d.title ∧
    (sanitize d).url = d.url ∧
    (sanitize d).criteria = d.criteria ∧
    (∀ js : List RawJudge, d.judges = JudgesField.arr js → js ≠ [] →
      (sanitize d).judges = JudgesField.arr js) ∧
    (∀ st : RawStrategy, d.strategy = some st →
      st.«structure».isSome = true → st.keyPhrases.isSome = true →
      (∃ g, st.generatedScript = some g ∧ g ≠ "") →
      (sanitize d).strategy = some st) := by
  refine ⟨rfl, rfl, rfl, ?_, ?_⟩
  · intro js hjs hne
    have he : js.isEmpty = false := by
      cases js with
      | nil => exact absurd rfl hne
      | cons a l => rfl
    simp [sanitize, judgesNeedFallback, hjs, he]
  · intro st hst h1 h2 h3
    rw [sanitize_strategy_eq, hst, sanitizeStrategy_intact st h1 h2 h3]

/-- Witness for C10: an already-complete record passes through the
sanitation unchanged in all frame positions. -/
theorem sanitize_frame_w :
    (sanitize partialInput).title = partialInput.title ∧
    (sanitize partialInput).judges = JudgesField.arr [partialJudge] ∧
    (sanitize partialInput).strategy = some
      { «structure» := some [], keyPhrases := some []
      , featuresToEmphasize := none, generatedScript := some "Hi judges." } := by
  have h := sanitize_frame partialInput
  exact ⟨h.1, h.2.2.2.1 [partialJudge] rfl (by decide),
    h.2.2.2.2 _ rfl rfl rfl ⟨"Hi judges.", rfl, by decide⟩⟩

/-! ## C3: the transcript pacing computation -/

/-- The pacer state right after a reset, with a word count of 0, a reference
timestamp of 0 ms and a wpm of 0. -/
def initialPacer : MirrorState :=
  { hasStream := true, chunks := [], isRecording := true, recordingTime := 0
  , wordCount := 0, lastTranscriptTime := 0, wpm := 0 }

/-- C3: the pacing step retains the previous `wpm` (and the whole pacer
state) when the elapsed time is at or below the 0.08-minute (4.8 s, "~5 s")
threshold — so two sub-threshold observations leave `wpm` unchanged; above
the threshold it recomputes `wpm` as `round(delta / elapsedMinutes)` clamped
to ≥ 0 and requests a tip exactly when the recomputed `wpm` is positive.  In
particular word counts [0, 20] at [0 ms, 10000 ms] give `wpm = 120` with a
tip request, and a zero word delta above the threshold gives `wpm = 0` with
no tip request. -/
theorem observe_pacing_spec (s : MirrorState) (words now : Nat) :
    (elapsedMinutes s now ≤ 0.08 → onresultObserve s words now = (s, false)) ∧
    (elapsedMinutes s now ≤ 0.08 → ∀ w2 n2 : Nat, elapsedMinutes s n2 ≤ 0.08 →
      (onresultObserve (onresultObserve s words now).1 w2 n2).1.wpm = s.wpm) ∧
    (0.08 < elapsedMinutes s now →
      ((onresultObserve s words now).1.wpm
          = if 0 < rawWPM s words now then (rawWPM s words now).toNat else 0) ∧
      ((onresultObserve s words now).2 = true
          ↔ 0 < (onresultObserve s words now).1.wpm)) ∧
    (onresultObserve initialPacer 20 10000
      = ({ initialPacer with
            wordCount := 20, lastTranscriptTime := 10000, wpm := 120 }, true)) ∧
    (onresultObserve { initialPacer with
          wordCount := 20, lastTranscriptTime := 10000, wpm := 120 } 20 20000
      = ({ initialPacer with
            wordCount := 20, lastTranscriptTime := 20000, wpm := 0 }, false)) := by
  have key : ∀ (t : MirrorState) (w n : Nat),
      ¬ (0.08 < elapsedMinutes t n) → onresultObserve t w n = (t, false) := by
    intro t w n h
    simp [onresultObserve, h]
  refine ⟨?_, ?_, ?_, ?_, ?_⟩
  · intro h
    exact key s words now (not_lt.mpr h)
  · intro h w2 n2 h2
    rw [key s words now (not_lt.mpr h)]
    exact congrArg MirrorState.wpm
      (congrArg Prod.fst (key s w2 n2 (not_lt.mpr h2)))
  · intro h
    constructor
    · simp [onresultObserve, h]
    · simp only [onresultObserve, if_pos h]
      by_cases hr : 0 < rawWPM s words now <;> simp [hr]
  · have hc : elapsedMinutes initialPacer 10000 = 1/6 := by
      norm_num [elapsedMinutes, initialPacer]
    have hr : rawWPM initialPacer 20 10000 = 120 := by
      unfold rawWPM jsRound
      rw [hc]
      norm_num [initialPacer]
    simp only [onresultObserve, hc, hr]
    norm_num
    decide
  · have hc : elapsedMinutes
        { initialPacer with
          wordCount := 20, lastTranscriptTime := 10000, wpm := 120 } 20000
        = 1/6 := by
      norm_num [elapsedMinutes, initialPacer]
    have hr : rawWPM { initialPacer with
          wordCount := 20, lastTranscriptTime := 10000, wpm := 120 } 20 20000
        = 0 := by
      unfold rawWPM jsRound
      rw [hc]
      norm_num [initialPacer]
    simp only [onresultObserve, hc, hr]
    norm_num

/-- A pacer state mid-rehearsal, used to instantiate the pacing theorem. -/
def midState : MirrorState :=
  { hasStream := true, chunks := [], isRecording := true, recordingTime := 3
  , wordCount := 5, lastTranscriptTime := 0, wpm := 42 }

/-- Witness for C3: at 3000 ms (0.05 min elapsed, below threshold) the state
and `wpm` are retained; at 9000 ms (0.15 min elapsed, above threshold) the
recomputation equation holds. -/
theorem observe_pacing_spec_w :
    onresultObserve midState 7 3000 = (midState, false) ∧
    ((onresultObserve midState 9 9000).1.wpm
      = if 0 < rawWPM midState 9 9000 then (rawWPM midState 9 9000).toNat
        else 0) :=
  ⟨(observe_pacing_spec midState 7 3000).1
      (by norm_num [elapsedMinutes, midState]),
   ((observe_pacing_spec midState 9 9000).2.2.1
      (by norm_num [elapsedMinutes, midState])).1⟩

/-! ## C4: the coaching-tip resolver absorbs every failure -/

/-- C4: `getRealTimeFeedback` never raises — it is a total function into
`String` — and on every failure outcome (the inference call threw, the
response had no text, or the text was empty) it returns the literal fallback
tip "Keep going!". -/
theorem tip_fallback_on_failure (resp : Option (Option String))
    (h : resp = none ∨ resp = some none ∨ resp = some (some "")) :
    getRealTimeFeedback resp = "Keep going!" := by
  rcases h with h | h | h <;> subst h <;> simp [getRealTimeFeedback]

/-- Witness for C4 at the thrown-call outcome. -/
theorem tip_fallback_on_failure_w :
    getRealTimeFeedback none = "Keep going!" :=
  tip_fallback_on_failure none (Or.inl rfl)

/-! ## C7: the video critique is returned verbatim or the call raises -/

/-- C7: `analyzeVideoDemo` returns the parsed inference response verbatim —
including an out-of-range `overallScore` such as 150, which is not clamped to
[0, 100] — and on every failure (video-encode failure, inference failure, or
empty response text) it raises an error instead of returning a result. -/
theorem video_critique_verbatim (b64 : String) (r : AnalysisResult)
    (resp : Option RespText) :
    analyzeVideoDemo (some b64) (some (RespText.parsed r)) = Except.ok r ∧
    analyzeVideoDemo (some b64)
        (some (RespText.parsed { r with overallScore := some 150 }))
      = Except.ok { r with overallScore := some 150 } ∧
    isErr (analyzeVideoDemo none resp) = true ∧
    isErr (analyzeVideoDemo (some b64) none) = true ∧
    isErr (analyzeVideoDemo (some b64) (some RespText.noText)) = true ∧
    isErr (analyzeVideoDemo (some b64) (some RespText.unparsable)) = true := by
  refine ⟨rfl, rfl, ?_, rfl, rfl, rfl⟩
  cases resp <;> rfl

/-! ## C8: tip request concurrency and stale responses -/

/-- A tip-traffic trace in which request 2 is issued before request 1's
response arrives, and request 1's response arrives last. -/
def staleTrace : List TipEvent :=
  [ TipEvent.issue 1, TipEvent.issue 2
  , TipEvent.respond 2 "Great energy, keep it up!"
  , TipEvent.respond 1 "Slow down, you are losing clarity!" ]

/-- C8 counterexample: the `onresult` handler fires `getRealTimeFeedback`
with a bare `.then` that applies every arriving response — on `staleTrace`
two requests are simultaneously in flight (peak 2, not at most 1), and the
displayed tip ends up being request 1's stale result, not request 2's. -/
theorem stale_tip_cex :
    applyTipResponses "Ready when you are..." staleTrace
      = "Slow down, you are losing clarity!" ∧
    "Slow down, you are losing clarity!" ≠ "Great energy, keep it up!" ∧
    inFlightPeak 0 staleTrace = 2 := by
  refine ⟨rfl, by decide, rfl⟩

/-- C8 amended: the code has no in-flight guard and no stale-response
rejection — any number of tip requests may be outstanding, each response is
applied as it arrives, and the displayed tip is always the tip of the
last-arriving response (which may belong to an earlier request). -/
theorem displayed_tip_last_arrival (disp : String) (evs : List TipEvent) :
    applyTipResponses disp evs = (lastRespTip evs).getD disp := by
  induction evs generalizing disp with
  | nil => rfl
  | cons e rest ih =>
    cases e with
    | issue i => simpa [applyTipResponses, lastRespTip] using ih disp
    | respond i t =>
      simp only [applyTipResponses, lastRespTip]
      rw [ih t]
      cases h : lastRespTip rest <;> simp [h]

/-! ## C9: what `startRecording` actually resets -/

/-- Component state left over from a previous recording: 42 observed words,
a stale reference timestamp and a nonzero smoothed wpm. -/
def recordedState : MirrorState :=
  { hasStream := true, chunks := [3, 5], isRecording := false
  , recordingTime := 47, wordCount := 42, lastTranscriptTime := 99000
  , wpm := 37 }

/-- C9 counterexample: immediately after `startRecording` on
`recordedState`, the last observed word count is still 42 (not 0), the
smoothed wpm is still 37 (not 0) and the last-computation timestamp is
unchanged — `startRecording` never touches the pacer refs or `wpm`. -/
theorem start_recording_reset_cex :
    (startRecording recordedState).wordCount = 42 ∧ (42 : Nat) ≠ 0 ∧
    (startRecording recordedState).wpm = 37 ∧ (37 : Nat) ≠ 0 ∧
    (startRecording recordedState).lastTranscriptTime
      = recordedState.lastTranscriptTime := by
  decide

/-- C9 amended: `startRecording` (when a media stream exists) clears the
recorded chunk buffer, sets the recording flag and resets the displayed
recording timer to 0, but leaves the entire pacer state — last observed word
count, last-computation timestamp and smoothed wpm — unchanged from the
previous recording. -/
theorem start_recording_frame (s : MirrorState) (h : s.hasStream = true) :
    startRecording s
      = { s with chunks := [], isRecording := true, recordingTime := 0 } ∧
    (startRecording s).wordCount = s.wordCount ∧
    (startRecording s).lastTranscriptTime = s.lastTranscriptTime ∧
    (startRecording s).wpm = s.wpm := by
  have he : startRecording s
      = { s with chunks := [], isRecording := true, recordingTime := 0 } := by
    simp [startRecording, h]
  exact ⟨he, by rw [he], by rw [he], by rw [he]⟩

/-- Witness for the amended C9 on a concrete leftover state. -/
theorem start_recording_frame_w :
    (startRecording (MirrorState.mk true [] false 9 7 123 88)).wpm = 88 :=
  (start_recording_frame (MirrorState.mk true [] false 9 7 123 88) rfl).2.2.2

end HackJudge
